import Mathlib

/-!
Verification development for a two-format binary 3D-asset decoder
(a level-geometry format and an animated-model format).

The definitions below are a shallow embedding of the two loaders:
* the animated-model loader (`importMeshMDL` and its helpers), covering
  header parsing, skin decoding, the shared UV/triangle tables, per-frame
  vertex decoding and the per-triangle-corner snapshot expansion;
* the level loader (`importMeshBSP` and its helpers), covering the
  directory header, section decoding, polygon extraction from signed
  edge-list entries, fan triangulation, texture-axis UV projection and
  per-face submesh ranges.

Machine integers are modelled as `Int`/`Nat` (32-bit two's-complement
values decoded explicitly from little-endian bytes); IEEE-754 single
floats are modelled exactly as rationals via `f32ToRat` (NaN/Inf mapped
to 0; the rounding performed when a 32-bit integer is stored into a
32-bit float array is not modelled, as no proved statement depends on
those values).  Reads past the end of the buffer produce a typed
`boundsErr` failure, mirroring the runtime exception thrown by the
underlying data view.
-/

namespace MDLViewer

/-- Rational 3-vector, standing in for the engine's float vector type. -/
structure Vec3 where
  x : ℚ
  y : ℚ
  z : ℚ
deriving DecidableEq, Inhabited

/-- Rational 4-vector (projection axis plus offset component). -/
structure Vec4 where
  x : ℚ
  y : ℚ
  z : ℚ
  w : ℚ
deriving DecidableEq, Inhabited

/-- The 4-component dot product, as in the loader's local `dot` helper. -/
def dot4 (a b : Vec4) : ℚ :=
  a.x * b.x + a.y * b.y + a.z * b.z + a.w * b.w

/-- Decode failure kinds: bad magic/version, unsupported group skin,
read past the end of the buffer, normal-table index out of bounds. -/
inductive DecodeErr where
  | formatErr
  | unsupportedSkin
  | boundsErr
  | normalOOB
deriving DecidableEq

/-- Result of an `importMesh` call: success, an error returned to the
caller as `false` (with an alert), or an uncaught runtime exception. -/
inductive LoadResult where
  | ok
  | failed (e : DecodeErr)
  | thrown (e : DecodeErr)
deriving DecidableEq

/-- How each `DecodeErr` surfaces at the `importMesh` boundary: format
and group-skin errors are returned, bounds and normal-table errors are
runtime exceptions. -/
def toResult (e : DecodeErr) : LoadResult :=
  match e with
  | .formatErr => .failed .formatErr
  | .unsupportedSkin => .failed .unsupportedSkin
  | .boundsErr => .thrown .boundsErr
  | .normalOOB => .thrown .normalOOB

/-- Sequential little-endian reader over an immutable byte buffer,
mirroring the `BinaryReader` class: a byte list plus a mutable offset
(kept as `Int`, since the source's offset is a plain number that `skip`
may drive negative). -/
structure Reader where
  data : List Nat
  off : Int
deriving DecidableEq

/-- Byte at an integer offset (0 outside the buffer; reads guard the
bounds themselves). -/
def byteAt (data : List Nat) (i : Int) : Nat :=
  if 0 ≤ i then data.getD i.toNat 0 else 0

/-- Little-endian unsigned 32-bit value starting at offset `i`. -/
def u32At (data : List Nat) (i : Int) : Nat :=
  byteAt data i + 256 * byteAt data (i + 1) + 65536 * byteAt data (i + 2) +
    16777216 * byteAt data (i + 3)

/-- Little-endian unsigned 16-bit value starting at offset `i`. -/
def u16At (data : List Nat) (i : Int) : Nat :=
  byteAt data i + 256 * byteAt data (i + 1)

/-- Reinterpret an unsigned 32-bit value as two's-complement signed. -/
def i32val (u : Nat) : Int :=
  if u < 2147483648 then (u : Int) else (u : Int) - 4294967296

/-- Reinterpret an unsigned 16-bit value as two's-complement signed. -/
def i16val (u : Nat) : Int :=
  if u < 32768 then (u : Int) else (u : Int) - 65536

/-- Signed little-endian 32-bit value starting at offset `i`. -/
def i32At (data : List Nat) (i : Int) : Int :=
  i32val (u32At data i)

/-- Exact rational value of an IEEE-754 single-precision bit pattern.
NaN and infinities (exponent 255) are mapped to 0; no proved statement
depends on such values. -/
def f32ToRat (bits : Nat) : ℚ :=
  let sign : Nat := bits / 2 ^ 31 % 2
  let expo : Nat := bits / 2 ^ 23 % 2 ^ 8
  let mant : Nat := bits % 2 ^ 23
  let mag : ℚ :=
    if expo = 0 then (mant : ℚ) / 2 ^ 149
    else if expo = 255 then 0
    else ((2 ^ 23 + mant : ℕ) : ℚ) * 2 ^ expo / 2 ^ 150
  if sign = 1 then -mag else mag

/-- Read one unsigned byte (`readUint8`), advancing the offset; out-of-range offsets
raise the bounds failure (the data view throws). -/
def rdU8 (r : Reader) : Except DecodeErr (Nat × Reader) :=
  if 0 ≤ r.off ∧ r.off + 1 ≤ (r.data.length : Int) then
    .ok (byteAt r.data r.off, ⟨r.data, r.off + 1⟩)
  else .error .boundsErr

/-- Read an unsigned 16-bit word (`readUint16`, little-endian). -/
def rdU16 (r : Reader) : Except DecodeErr (Nat × Reader) :=
  if 0 ≤ r.off ∧ r.off + 2 ≤ (r.data.length : Int) then
    .ok (u16At r.data r.off, ⟨r.data, r.off + 2⟩)
  else .error .boundsErr

/-- Read a signed 16-bit word (`readInt16`, little-endian). -/
def rdI16 (r : Reader) : Except DecodeErr (Int × Reader) :=
  if 0 ≤ r.off ∧ r.off + 2 ≤ (r.data.length : Int) then
    .ok (i16val (u16At r.data r.off), ⟨r.data, r.off + 2⟩)
  else .error .boundsErr

/-- Read an unsigned 32-bit word (`readUint32`, little-endian). -/
def rdU32 (r : Reader) : Except DecodeErr (Nat × Reader) :=
  if 0 ≤ r.off ∧ r.off + 4 ≤ (r.data.length : Int) then
    .ok (u32At r.data r.off, ⟨r.data, r.off + 4⟩)
  else .error .boundsErr

/-- Read a signed 32-bit word (`readInt32`, little-endian). -/
def rdI32 (r : Reader) : Except DecodeErr (Int × Reader) :=
  if 0 ≤ r.off ∧ r.off + 4 ≤ (r.data.length : Int) then
    .ok (i32At r.data r.off, ⟨r.data, r.off + 4⟩)
  else .error .boundsErr

/-- Read a 32-bit float (`readFloat32`), decoded exactly to a rational. -/
def rdF32 (r : Reader) : Except DecodeErr (ℚ × Reader) :=
  if 0 ≤ r.off ∧ r.off + 4 ≤ (r.data.length : Int) then
    .ok (f32ToRat (u32At r.data r.off), ⟨r.data, r.off + 4⟩)
  else .error .boundsErr

/-- Read a length-`n` byte view (`readUint8Array`; bounds-checked view
construction). -/
def rdBytes (r : Reader) (n : Nat) : Except DecodeErr (List Nat × Reader) :=
  if 0 ≤ r.off ∧ r.off + n ≤ (r.data.length : Int) then
    .ok ((List.range n).map fun k => byteAt r.data (r.off + k), ⟨r.data, r.off + n⟩)
  else .error .boundsErr

/-- Read a length-`n` u32 view (`readUint32Array`); the underlying typed
array constructor additionally requires 4-byte alignment. -/
def rdU32Array (r : Reader) (n : Nat) : Except DecodeErr (List Nat × Reader) :=
  if 0 ≤ r.off ∧ r.off + 4 * n ≤ (r.data.length : Int) ∧ r.off % 4 = 0 then
    .ok ((List.range n).map fun k => u32At r.data (r.off + 4 * k), ⟨r.data, r.off + 4 * n⟩)
  else .error .boundsErr

/-- Advance the offset without a bounds check (`skipBytes`). -/
def skipB (r : Reader) (n : Int) : Reader :=
  ⟨r.data, r.off + n⟩

/-- Set the offset absolutely without a bounds check (`seekBytes`). -/
def seekB (r : Reader) (o : Int) : Reader :=
  ⟨r.data, o⟩


/-- The fixed 256-entry RGB palette (`colorMap`), shared by both
loaders, transcribed from the source constant. -/
def colorMap : List (Nat × Nat × Nat) := [
(0, 0, 0),
(15, 15, 15),
(31, 31, 31),
(47, 47, 47),
(63, 63, 63),
(75, 75, 75),
(91, 91, 91),
(107, 107, 107),
(123, 123, 123),
(139, 139, 139),
(155, 155, 155),
(171, 171, 171),
(187, 187, 187),
(203, 203, 203),
(219, 219, 219),
(235, 235, 235),
(15, 11, 7),
(23, 15, 11),
(31, 23, 11),
(39, 27, 15),
(47, 35, 19),
(55, 43, 23),
(63, 47, 23),
(75, 55, 27),
(83, 59, 27),
(91, 67, 31),
(99, 75, 31),
(107, 83, 31),
(115, 87, 31),
(123, 95, 35),
(131, 103, 35),
(143, 111, 35),
(11, 11, 15),
(19, 19, 27),
(27, 27, 39),
(39, 39, 51),
(47, 47, 63),
(55, 55, 75),
(63, 63, 87),
(71, 71, 103),
(79, 79, 115),
(91, 91, 127),
(99, 99, 139),
(107, 107, 151),
(115, 115, 163),
(123, 123, 175),
(131, 131, 187),
(139, 139, 203),
(0, 0, 0),
(7, 7, 0),
(11, 11, 0),
(19, 19, 0),
(27, 27, 0),
(35, 35, 0),
(43, 43, 7),
(47, 47, 7),
(55, 55, 7),
(63, 63, 7),
(71, 71, 7),
(75, 75, 11),
(83, 83, 11),
(91, 91, 11),
(99, 99, 11),
(107, 107, 15),
(7, 0, 0),
(15, 0, 0),
(23, 0, 0),
(31, 0, 0),
(39, 0, 0),
(47, 0, 0),
(55, 0, 0),
(63, 0, 0),
(71, 0, 0),
(79, 0, 0),
(87, 0, 0),
(95, 0, 0),
(103, 0, 0),
(111, 0, 0),
(119, 0, 0),
(127, 0, 0),
(19, 19, 0),
(27, 27, 0),
(35, 35, 0),
(47, 43, 0),
(55, 47, 0),
(67, 55, 0),
(75, 59, 7),
(87, 67, 7),
(95, 71, 7),
(107, 75, 11),
(119, 83, 15),
(131, 87, 19),
(139, 91, 19),
(151, 95, 27),
(163, 99, 31),
(175, 103, 35),
(35, 19, 7),
(47, 23, 11),
(59, 31, 15),
(75, 35, 19),
(87, 43, 23),
(99, 47, 31),
(115, 55, 35),
(127, 59, 43),
(143, 67, 51),
(159, 79, 51),
(175, 99, 47),
(191, 119, 47),
(207, 143, 43),
(223, 171, 39),
(239, 203, 31),
(255, 243, 27),
(11, 7, 0),
(27, 19, 0),
(43, 35, 15),
(55, 43, 19),
(71, 51, 27),
(83, 55, 35),
(99, 63, 43),
(111, 71, 51),
(127, 83, 63),
(139, 95, 71),
(155, 107, 83),
(167, 123, 95),
(183, 135, 107),
(195, 147, 123),
(211, 163, 139),
(227, 179, 151),
(171, 139, 163),
(159, 127, 151),
(147, 115, 135),
(139, 103, 123),
(127, 91, 111),
(119, 83, 99),
(107, 75, 87),
(95, 63, 75),
(87, 55, 67),
(75, 47, 55),
(67, 39, 47),
(55, 31, 35),
(43, 23, 27),
(35, 19, 19),
(23, 11, 11),
(15, 7, 7),
(187, 115, 159),
(175, 107, 143),
(163, 95, 131),
(151, 87, 119),
(139, 79, 107),
(127, 75, 95),
(115, 67, 83),
(107, 59, 75),
(95, 51, 63),
(83, 43, 55),
(71, 35, 43),
(59, 31, 35),
(47, 23, 27),
(35, 19, 19),
(23, 11, 11),
(15, 7, 7),
(219, 195, 187),
(203, 179, 167),
(191, 163, 155),
(175, 151, 139),
(163, 135, 123),
(151, 123, 111),
(135, 111, 95),
(123, 99, 83),
(107, 87, 71),
(95, 75, 59),
(83, 63, 51),
(67, 51, 39),
(55, 43, 31),
(39, 31, 23),
(27, 19, 15),
(15, 11, 7),
(111, 131, 123),
(103, 123, 111),
(95, 115, 103),
(87, 107, 95),
(79, 99, 87),
(71, 91, 79),
(63, 83, 71),
(55, 75, 63),
(47, 67, 55),
(43, 59, 47),
(35, 51, 39),
(31, 43, 31),
(23, 35, 23),
(15, 27, 19),
(11, 19, 11),
(7, 11, 7),
(255, 243, 27),
(239, 223, 23),
(219, 203, 19),
(203, 183, 15),
(187, 167, 15),
(171, 151, 11),
(155, 131, 7),
(139, 115, 7),
(123, 99, 7),
(107, 83, 0),
(91, 71, 0),
(75, 55, 0),
(59, 43, 0),
(43, 31, 0),
(27, 15, 0),
(11, 7, 0),
(0, 0, 255),
(11, 11, 239),
(19, 19, 223),
(27, 27, 207),
(35, 35, 191),
(43, 43, 175),
(47, 47, 159),
(47, 47, 143),
(47, 47, 127),
(47, 47, 111),
(47, 47, 95),
(43, 43, 79),
(35, 35, 63),
(27, 27, 47),
(19, 19, 31),
(11, 11, 15),
(43, 0, 0),
(59, 0, 0),
(75, 7, 0),
(95, 7, 0),
(111, 15, 0),
(127, 23, 7),
(147, 31, 7),
(163, 39, 11),
(183, 51, 15),
(195, 75, 27),
(207, 99, 43),
(219, 127, 59),
(227, 151, 79),
(231, 171, 95),
(239, 191, 119),
(247, 211, 139),
(167, 123, 59),
(183, 155, 55),
(199, 195, 55),
(231, 227, 87),
(127, 191, 255),
(171, 231, 255),
(215, 255, 255),
(103, 0, 0),
(139, 0, 0),
(179, 0, 0),
(215, 0, 0),
(255, 0, 0),
(255, 243, 147),
(255, 247, 199),
(255, 255, 255),
(159, 91, 83)]

set_option maxHeartbeats 4000000 in
/-- The fixed 162-entry unit-normal table (`anormals`), transcribed
from the source constant: six-decimal literals kept as integer
micro-units in `anormalsMicro` and divided out once here. -/
def anormalsMicro : List (Int × Int × Int) := [
(-525731, 0, 850651),
(-442863, 238856, 864188),
(-295242, 0, 955423),
(-309017, 500000, 809017),
(-162460, 262866, 951056),
(0, 0, 1000000),
(0, 850651, 525731),
(-147621, 716567, 681718),
(147621, 716567, 681718),
(0, 525731, 850651),
(309017, 500000, 809017),
(525731, 0, 850651),
(295242, 0, 955423),
(442863, 238856, 864188),
(162460, 262866, 951056),
(-681718, 147621, 716567),
(-809017, 309017, 500000),
(-587785, 425325, 688191),
(-850651, 525731, 0),
(-864188, 442863, 238856),
(-716567, 681718, 147621),
(-688191, 587785, 425325),
(-500000, 809017, 309017),
(-238856, 864188, 442863),
(-425325, 688191, 587785),
(-716567, 681718, -147621),
(-500000, 809017, -309017),
(-525731, 850651, 0),
(0, 850651, -525731),
(-238856, 864188, -442863),
(0, 955423, -295242),
(-262866, 951056, -162460),
(0, 1000000, 0),
(0, 955423, 295242),
(-262866, 951056, 162460),
(238856, 864188, 442863),
(262866, 951056, 162460),
(500000, 809017, 309017),
(238856, 864188, -442863),
(262866, 951056, -162460),
(500000, 809017, -309017),
(850651, 525731, 0),
(716567, 681718, 147621),
(716567, 681718, -147621),
(525731, 850651, 0),
(425325, 688191, 587785),
(864188, 442863, 238856),
(688191, 587785, 425325),
(809017, 309017, 500000),
(681718, 147621, 716567),
(587785, 425325, 688191),
(955423, 295242, 0),
(1000000, 0, 0),
(951056, 162460, 262866),
(850651, -525731, 0),
(955423, -295242, 0),
(864188, -442863, 238856),
(951056, -162460, 262866),
(809017, -309017, 500000),
(681718, -147621, 716567),
(850651, 0, 525731),
(864188, 442863, -238856),
(809017, 309017, -500000),
(951056, 162460, -262866),
(525731, 0, -850651),
(681718, 147621, -716567),
(681718, -147621, -716567),
(850651, 0, -525731),
(809017, -309017, -500000),
(864188, -442863, -238856),
(951056, -162460, -262866),
(147621, 716567, -681718),
(309017, 500000, -809017),
(425325, 688191, -587785),
(442863, 238856, -864188),
(587785, 425325, -688191),
(688191, 587785, -425325),
(-147621, 716567, -681718),
(-309017, 500000, -809017),
(0, 525731, -850651),
(-525731, 0, -850651),
(-442863, 238856, -864188),
(-295242, 0, -955423),
(-162460, 262866, -951056),
(0, 0, -1000000),
(295242, 0, -955423),
(162460, 262866, -951056),
(-442863, -238856, -864188),
(-309017, -500000, -809017),
(-162460, -262866, -951056),
(0, -850651, -525731),
(-147621, -716567, -681718),
(147621, -716567, -681718),
(0, -525731, -850651),
(309017, -500000, -809017),
(442863, -238856, -864188),
(162460, -262866, -951056),
(238856, -864188, -442863),
(500000, -809017, -309017),
(425325, -688191, -587785),
(716567, -681718, -147621),
(688191, -587785, -425325),
(587785, -425325, -688191),
(0, -955423, -295242),
(0, -1000000, 0),
(262866, -951056, -162460),
(0, -850651, 525731),
(0, -955423, 295242),
(238856, -864188, 442863),
(262866, -951056, 162460),
(500000, -809017, 309017),
(716567, -681718, 147621),
(525731, -850651, 0),
(-238856, -864188, -442863),
(-500000, -809017, -309017),
(-262866, -951056, -162460),
(-850651, -525731, 0),
(-716567, -681718, -147621),
(-716567, -681718, 147621),
(-525731, -850651, 0),
(-500000, -809017, 309017),
(-238856, -864188, 442863),
(-262866, -951056, 162460),
(-864188, -442863, 238856),
(-809017, -309017, 500000),
(-688191, -587785, 425325),
(-681718, -147621, 716567),
(-442863, -238856, 864188),
(-587785, -425325, 688191),
(-309017, -500000, 809017),
(-147621, -716567, 681718),
(-425325, -688191, 587785),
(-162460, -262866, 951056),
(442863, -238856, 864188),
(162460, -262866, 951056),
(309017, -500000, 809017),
(147621, -716567, 681718),
(0, -525731, 850651),
(425325, -688191, 587785),
(587785, -425325, 688191),
(688191, -587785, 425325),
(-955423, 295242, 0),
(-951056, 162460, 262866),
(-1000000, 0, 0),
(-850651, 0, 525731),
(-955423, -295242, 0),
(-951056, -162460, 262866),
(-864188, 442863, -238856),
(-951056, 162460, -262866),
(-809017, 309017, -500000),
(-864188, -442863, -238856),
(-951056, -162460, -262866),
(-809017, -309017, -500000),
(-681718, 147621, -716567),
(-681718, -147621, -716567),
(-850651, 0, -525731),
(-688191, 587785, -425325),
(-587785, 425325, -688191),
(-425325, 688191, -587785),
(-425325, -688191, -587785),
(-587785, -425325, -688191),
(-688191, -587785, -425325)]

/-- The unit-normal table as exact rationals. -/
def anormals : List (ℚ × ℚ × ℚ) :=
  anormalsMicro.map fun t => ((t.1 : ℚ) / 1000000, (t.2.1 : ℚ) / 1000000, (t.2.2 : ℚ) / 1000000)


/-- Model-format header scalars (`Header` in the model loader). -/
structure MDLHeader where
  scale : Vec3
  translate : Vec3
  numSkins : Int
  skinWidth : Int
  skinHeight : Int
  numVertices : Int
  numTriangles : Int
  numFrames : Int
deriving DecidableEq

/-- One morph-target snapshot: the per-triangle-corner position, normal
and UV buffers produced for one non-grouped frame. -/
structure MDLSnapshot where
  positions : List ℚ
  normals : List ℚ
  uvs : List ℚ
deriving DecidableEq

/-- The mesh pushed onto the caller's mesh collection by the model
loader, carrying its morph-target snapshots. -/
structure MDLMesh where
  snapshots : List MDLSnapshot
deriving DecidableEq

/-- Storing a signed 32-bit value into an unsigned 32-bit array slot. -/
def u32wrap (i : Int) : Nat :=
  (i.emod 4294967296).toNat

/-- One palette lookup producing an RGB byte triple. -/
def paletteRGB (b : Nat) : List Nat :=
  let c := colorMap.getD b (0, 0, 0)
  [c.1, c.2.1, c.2.2]

/-- The per-skin pixel loop: `skinWidth*skinHeight` palette-indexed
bytes, each expanded to RGB through `colorMap`. -/
def readPixels : Reader → Nat → Except DecodeErr (List Nat × Reader)
  | r, 0 => .ok ([], r)
  | r, n + 1 =>
    match rdU8 r with
    | .error e => .error e
    | .ok (b, r1) =>
      match readPixels r1 n with
      | .error e => .error e
      | .ok (px, r2) => .ok (paletteRGB b ++ px, r2)

/-- The skin loop: for each skin read the leading group flag; a nonzero
flag aborts with the unsupported-skin error before any pixel byte of
that skin is read, otherwise the skin's pixels are decoded. -/
def skinsLoop (pixelCount : Nat) : Reader → Nat → Except DecodeErr (List (List Nat) × Reader)
  | r, 0 => .ok ([], r)
  | r, count + 1 =>
    match rdI32 r with
    | .error e => .error e
    | .ok (group, r1) =>
      if group = 0 then
        match readPixels r1 pixelCount with
        | .error e => .error e
        | .ok (skin, r2) =>
          match skinsLoop pixelCount r2 count with
          | .error e => .error e
          | .ok (skins, r3) => .ok (skin :: skins, r3)
      else .error .unsupportedSkin

/-- The shared UV table: per vertex an `onSeam` flag (stored into an
unsigned 32-bit slot) and raw `s`,`t` texel coordinates. -/
def uvLoop : Reader → Nat → Except DecodeErr (List Nat × List ℚ × Reader)
  | r, 0 => .ok ([], [], r)
  | r, n + 1 =>
    match rdI32 r with
    | .error e => .error e
    | .ok (seamFlag, r1) =>
      match rdI32 r1 with
      | .error e => .error e
      | .ok (s, r2) =>
        match rdI32 r2 with
        | .error e => .error e
        | .ok (t, r3) =>
          match uvLoop r3 n with
          | .error e => .error e
          | .ok (onSeam, uvs, r4) =>
            .ok (u32wrap seamFlag :: onSeam, (s : ℚ) :: (t : ℚ) :: uvs, r4)

/-- The triangle table: per triangle a `facesFront` flag and three
vertex indices, both stored into unsigned 32-bit slots.  (The source's
`backside` array computed in this loop is never read afterwards and is
not modelled.) -/
def triLoop : Reader → Nat → Except DecodeErr (List Nat × List Nat × Reader)
  | r, 0 => .ok ([], [], r)
  | r, n + 1 =>
    match rdI32 r with
    | .error e => .error e
    | .ok (facesFront, r1) =>
      match rdI32 r1 with
      | .error e => .error e
      | .ok (v0, r2) =>
        match rdI32 r2 with
        | .error e => .error e
        | .ok (v1, r3) =>
          match rdI32 r3 with
          | .error e => .error e
          | .ok (v2, r4) =>
            match triLoop r4 n with
            | .error e => .error e
            | .ok (faceFront, indices, r5) =>
              .ok (u32wrap facesFront :: faceFront,
                u32wrap v0 :: u32wrap v1 :: u32wrap v2 :: indices, r5)

/-- The per-frame vertex loop: each record is three position bytes
(scaled by `header.scale` and offset by `header.translate`) and one
normal-index byte looked up in the 162-entry `anormals` table.  The
source performs no bounds check on the index byte; an index past the
table end is the out-of-bounds lookup failure. -/
def parseVerts (scale translate : Vec3) : Reader → Nat → Except DecodeErr (List ℚ × List ℚ × Reader)
  | r, 0 => .ok ([], [], r)
  | r, n + 1 =>
    match rdU8 r with
    | .error e => .error e
    | .ok (x, r1) =>
      match rdU8 r1 with
      | .error e => .error e
      | .ok (y, r2) =>
        match rdU8 r2 with
        | .error e => .error e
        | .ok (z, r3) =>
          match rdU8 r3 with
          | .error e => .error e
          | .ok (normalIndex, r4) =>
            if normalIndex < 162 then
              let nm := anormals.getD normalIndex (0, 0, 0)
              match parseVerts scale translate r4 n with
              | .error e => .error e
              | .ok (ps, ns, r5) =>
                .ok (((x : ℚ) * scale.x + translate.x) ::
                       ((y : ℚ) * scale.y + translate.y) ::
                       ((z : ℚ) * scale.z + translate.z) :: ps,
                  nm.1 :: nm.2.1 :: nm.2.2 :: ns, r5)
            else .error .normalOOB

/-- Parse one frame (`parseFrame`): skip the frame's bboxmin, bboxmax and 16-byte name,
then decode `numVertices` vertex records. -/
def parseFrame (hdr : MDLHeader) (r : Reader) : Except DecodeErr (List ℚ × List ℚ × Reader) :=
  parseVerts hdr.scale hdr.translate (skipB r (2 * 4 + 16)) hdr.numVertices.toNat

/-- Decode and discard the sub-frames of a grouped frame record. -/
def groupFrames (hdr : MDLHeader) : Reader → Nat → Except DecodeErr Reader
  | r, 0 => .ok r
  | r, k + 1 =>
    match parseFrame hdr r with
    | .error e => .error e
    | .ok (_, _, r1) => groupFrames hdr r1 k

/-- The grouped-frame branch, entered after a nonzero frame-type flag:
read the sub-frame count, skip `3*4` bytes (the source's `min, max`
skip), skip the per-subframe intervals, then decode and discard each
sub-frame. -/
def groupBranch (hdr : MDLHeader) (r : Reader) : Except DecodeErr Reader :=
  match rdI32 r with
  | .error e => .error e
  | .ok (numFramesInGroup, r1) =>
    let r2 := skipB r1 (3 * 4)
    let r3 := skipB r2 (4 * numFramesInGroup)
    groupFrames hdr r3 numFramesInGroup.toNat

/-- Modelled from the spec: the byte count a grouped frame record
occupies after its frame-type flag per the claimed layout — the 4-byte
sub-frame count, two 4-byte bounding-box records, `n` 4-byte
per-subframe intervals, and `n` sub-frame records of 4+4+16 header
bytes plus `4*vertexCount` vertex bytes each. -/
def specGroupFrameRecordBytes (n vertexCount : Nat) : Nat :=
  4 + 2 * 4 + 4 * n + n * (4 + 4 + 16 + 4 * vertexCount)

/-- Per-triangle-corner expansion of a frame's vertex positions. -/
def buildPositions2 (T : Nat) (indices : List Nat) (framePositions : List ℚ) : List ℚ :=
  (List.range T).flatMap fun i => (List.range 3).flatMap fun j =>
    let idx := 3 * i + j
    let vertexIndex := indices.getD idx 0
    [framePositions.getD (3 * vertexIndex) 0,
     framePositions.getD (3 * vertexIndex + 1) 0,
     framePositions.getD (3 * vertexIndex + 2) 0]

/-- Per-triangle-corner expansion of a frame's vertex normals. -/
def buildNormals2 (T : Nat) (indices : List Nat) (frameNormals : List ℚ) : List ℚ :=
  (List.range T).flatMap fun i => (List.range 3).flatMap fun j =>
    let idx := 3 * i + j
    let vertexIndex := indices.getD idx 0
    [frameNormals.getD (3 * vertexIndex) 0,
     frameNormals.getD (3 * vertexIndex + 1) 0,
     frameNormals.getD (3 * vertexIndex + 2) 0]

/-- Per-triangle-corner UV expansion: raw texel coordinates of the
corner's vertex, shifted by half the skin width when the triangle does
not face front and the vertex is on the seam, then normalised with the
half-texel offset. -/
def buildUVs2 (T : Nat) (w h : ℚ) (indices faceFront onSeam : List Nat) (uvs : List ℚ) : List ℚ :=
  (List.range T).flatMap fun i => (List.range 3).flatMap fun j =>
    let idx := 3 * i + j
    let vertexIndex := indices.getD idx 0
    let s := uvs.getD (2 * vertexIndex) 0
    let t := uvs.getD (2 * vertexIndex + 1) 0
    let s2 := if faceFront.getD i 0 = 0 ∧ onSeam.getD vertexIndex 0 ≠ 0 then s + 1 / 2 * w else s
    [(s2 + 1 / 2) / w, (t + 1 / 2) / h]

/-- Assemble one frame's morph-target snapshot from the decoded frame
data and the shared tables. -/
def buildSnapshot (hdr : MDLHeader) (onSeam faceFront indices : List Nat) (uvs : List ℚ)
    (framePositions frameNormals : List ℚ) : MDLSnapshot :=
  let T := hdr.numTriangles.toNat
  ⟨buildPositions2 T indices framePositions,
   buildNormals2 T indices frameNormals,
   buildUVs2 T (hdr.skinWidth : ℚ) (hdr.skinHeight : ℚ) indices faceFront onSeam uvs⟩

/-- The frame loop: each record's leading type flag selects the
non-grouped branch (decode the frame, add one snapshot, record `false`)
or the grouped branch (consume the group, add no snapshot, record
`true`).  On a failure the snapshots added so far are kept, since they
were already attached to the pushed mesh. -/
def frameLoop (hdr : MDLHeader) (onSeam faceFront indices : List Nat) (uvs : List ℚ) :
    Reader → Nat → Except (DecodeErr × List MDLSnapshot) (Reader × List MDLSnapshot × List Bool)
  | r, 0 => .ok (r, [], [])
  | r, n + 1 =>
    match rdI32 r with
    | .error e => .error (e, [])
    | .ok (frameType, r1) =>
      if frameType = 0 then
        match parseFrame hdr r1 with
        | .error e => .error (e, [])
        | .ok (framePositions, frameNormals, r2) =>
          match frameLoop hdr onSeam faceFront indices uvs r2 n with
          | .error (e, snaps) =>
            .error (e, buildSnapshot hdr onSeam faceFront indices uvs framePositions frameNormals :: snaps)
          | .ok (r3, snaps, kinds) =>
            .ok (r3, buildSnapshot hdr onSeam faceFront indices uvs framePositions frameNormals :: snaps,
              false :: kinds)
      else
        match groupBranch hdr r1 with
        | .error e => .error (e, [])
        | .ok r2 =>
          match frameLoop hdr onSeam faceFront indices uvs r2 n with
          | .error (e, snaps) => .error (e, snaps)
          | .ok (r3, snaps, kinds) => .ok (r3, snaps, true :: kinds)

/-- Everything the model loader does before the mesh is pushed onto the
caller's collection: magic and version checks, header scalars, skins,
the shared UV table and the triangle table. -/
structure MDLPre where
  hdr : MDLHeader
  skins : List (List Nat)
  onSeam : List Nat
  uvs : List ℚ
  faceFront : List Nat
  indices : List Nat
  rdr : Reader
deriving DecidableEq

/-- Header scalars following the magic and version words: scale and
translate vectors, a 16-byte skip (bounding radius and eye position),
six counts, and a 12-byte skip (sync type, flags, size). -/
def readMDLHeader (r : Reader) : Except DecodeErr (MDLHeader × Reader) :=
  match rdF32 r with
  | .error e => .error e
  | .ok (sx, r1) =>
    match rdF32 r1 with
    | .error e => .error e
    | .ok (sy, r2) =>
      match rdF32 r2 with
      | .error e => .error e
      | .ok (sz, r3) =>
        match rdF32 r3 with
        | .error e => .error e
        | .ok (tx, r4) =>
          match rdF32 r4 with
          | .error e => .error e
          | .ok (ty, r5) =>
            match rdF32 r5 with
            | .error e => .error e
            | .ok (tz, r6) =>
              match rdI32 (skipB r6 (4 * 4)) with
              | .error e => .error e
              | .ok (numSkins, r7) =>
                match rdI32 r7 with
                | .error e => .error e
                | .ok (skinWidth, r8) =>
                  match rdI32 r8 with
                  | .error e => .error e
                  | .ok (skinHeight, r9) =>
                    match rdI32 r9 with
                    | .error e => .error e
                    | .ok (numVertices, r10) =>
                      match rdI32 r10 with
                      | .error e => .error e
                      | .ok (numTriangles, r11) =>
                        match rdI32 r11 with
                        | .error e => .error e
                        | .ok (numFrames, r12) =>
                          .ok (⟨⟨sx, sy, sz⟩, ⟨tx, ty, tz⟩, numSkins, skinWidth,
                              skinHeight, numVertices, numTriangles, numFrames⟩,
                            skipB r12 (4 * 3))

/-- The pre-push phase of the model loader, from the start of the
buffer through the triangle table. -/
def mdlPre (data : List Nat) : Except DecodeErr MDLPre :=
  match rdI32 ⟨data, 0⟩ with
  | .error e => .error e
  | .ok (magic, r0) =>
    if magic = 1330660425 then
      match rdI32 r0 with
      | .error e => .error e
      | .ok (version, r1) =>
        if version = 6 then
          match readMDLHeader r1 with
          | .error e => .error e
          | .ok (hdr, r2) =>
            match skinsLoop (hdr.skinWidth * hdr.skinHeight).toNat r2 hdr.numSkins.toNat with
            | .error e => .error e
            | .ok (skins, r3) =>
              match uvLoop r3 hdr.numVertices.toNat with
              | .error e => .error e
              | .ok (onSeam, uvs, r4) =>
                match triLoop r4 hdr.numTriangles.toNat with
                | .error e => .error e
                | .ok (faceFront, indices, r5) =>
                  .ok ⟨hdr, skins, onSeam, uvs, faceFront, indices, r5⟩
        else .error .formatErr
    else .error .formatErr

/-- The model loader's `importMesh`: on a pre-push failure the caller's
mesh collection is returned unchanged with the corresponding result; on
success the mesh is pushed and the frame loop attaches its snapshots to
it — a failure inside the frame loop therefore surfaces as a thrown
error with the partially-populated mesh already in the collection. -/
def importMeshMDL (data : List Nat) (meshes : List MDLMesh) : List MDLMesh × LoadResult :=
  match mdlPre data with
  | .error e => (meshes, toResult e)
  | .ok st =>
    match frameLoop st.hdr st.onSeam st.faceFront st.indices st.uvs st.rdr st.hdr.numFrames.toNat with
    | .error (e, snaps) => (meshes ++ [⟨snaps⟩], .thrown e)
    | .ok (_, snaps, _) => (meshes ++ [⟨snaps⟩], .ok)


/-- One level-format directory entry: section offset and element count
(the count is the raw byte length divided by the per-element size; the
division is exact on well-formed inputs). -/
structure BSPDirEntry where
  offset : Int
  count : Int
deriving DecidableEq

/-- The level-format directory header. -/
structure BSPHeader where
  planes : BSPDirEntry
  miptex : BSPDirEntry
  vertices : BSPDirEntry
  texinfo : BSPDirEntry
  faces : BSPDirEntry
  edges : BSPDirEntry
  ledges : BSPDirEntry
deriving DecidableEq

/-- Per-face planar texture projection: two axis-plus-offset vectors, a
texture index and flags. -/
structure BSPTexinfo where
  s : Vec4
  t : Vec4
  miptex : Nat
  flags : Nat
deriving DecidableEq, Inhabited

/-- One texture record of the texture section. -/
structure BSPMiptex where
  name : List Nat
  width : Nat
  height : Nat
  offsets : Nat × Nat × Nat × Nat
deriving DecidableEq, Inhabited

/-- A palette-decoded texture as handed to the host. -/
structure BSPTexture where
  name : List Nat
  width : Nat
  height : Nat
  rgb : List Nat
deriving DecidableEq

/-- One plane record (decoded for completeness; unused geometrically). -/
structure BSPPlane where
  normal : Vec3
  distance : ℚ
  ptype : Nat
deriving DecidableEq

/-- One face record. -/
structure BSPFace where
  planeIndex : Nat
  side : Bool
  ledgeIndex : Int
  numLedges : Nat
  texInfoIndex : Int
  lightType : Nat
  baseLight : Nat
  light : Nat × Nat
  lightMap : Nat
deriving DecidableEq

/-- One render group: the per-face submesh record (material index plus
vertex and index ranges). -/
structure SubMeshRec where
  materialIndex : Nat
  verticesStart : Int
  verticesCount : Int
  indicesStart : Int
  indicesCount : Int
deriving DecidableEq

/-- The level loader's output: flat position and UV buffers, the index
buffer, the per-face render groups and the decoded textures. -/
structure BSPOut where
  positions : List ℚ
  uvs : List ℚ
  indices : List Nat
  groups : List SubMeshRec
  textures : List BSPTexture
deriving DecidableEq

/-- The directory header: a skip over the entities entry, then one
offset/length pair per section in fixed order, lengths divided by the
per-element sizes. -/
def readBSPHeader (r : Reader) : Except DecodeErr (BSPHeader × Reader) :=
  match rdI32 (skipB r 8) with
  | .error e => .error e
  | .ok (planesOff, r1) =>
    match rdI32 r1 with
    | .error e => .error e
    | .ok (planesLen, r2) =>
      match rdI32 r2 with
      | .error e => .error e
      | .ok (miptexOff, r3) =>
        match rdI32 r3 with
        | .error e => .error e
        | .ok (miptexLen, r4) =>
          match rdI32 r4 with
          | .error e => .error e
          | .ok (verticesOff, r5) =>
            match rdI32 r5 with
            | .error e => .error e
            | .ok (verticesLen, r6) =>
              match rdI32 (skipB r6 (2 * 8)) with
              | .error e => .error e
              | .ok (texinfoOff, r7) =>
                match rdI32 r7 with
                | .error e => .error e
                | .ok (texinfoLen, r8) =>
                  match rdI32 r8 with
                  | .error e => .error e
                  | .ok (facesOff, r9) =>
                    match rdI32 r9 with
                    | .error e => .error e
                    | .ok (facesLen, r10) =>
                      match rdI32 (skipB r10 (4 * 8)) with
                      | .error e => .error e
                      | .ok (edgesOff, r11) =>
                        match rdI32 r11 with
                        | .error e => .error e
                        | .ok (edgesLen, r12) =>
                          match rdI32 r12 with
                          | .error e => .error e
                          | .ok (ledgesOff, r13) =>
                            match rdI32 r13 with
                            | .error e => .error e
                            | .ok (ledgesLen, r14) =>
                              .ok (⟨⟨planesOff, planesLen / 20⟩,
                                  ⟨miptexOff, miptexLen⟩,
                                  ⟨verticesOff, verticesLen / 12⟩,
                                  ⟨texinfoOff, texinfoLen / 40⟩,
                                  ⟨facesOff, facesLen / 20⟩,
                                  ⟨edgesOff, edgesLen / 4⟩,
                                  ⟨ledgesOff, ledgesLen / 4⟩⟩,
                                skipB r14 8)

/-- A decoded level vertex: the raw coordinate divided by 10 on all
axes (the emitted-geometry scale). -/
def storedVertex (raw : Vec3) : Vec3 :=
  ⟨raw.x / 10, raw.y / 10, raw.z / 10⟩

/-- The vertex section: triples of floats, scaled on read. -/
def readVerticesBSP : Reader → Nat → Except DecodeErr (List Vec3 × Reader)
  | r, 0 => .ok ([], r)
  | r, n + 1 =>
    match rdF32 r with
    | .error e => .error e
    | .ok (x, r1) =>
      match rdF32 r1 with
      | .error e => .error e
      | .ok (y, r2) =>
        match rdF32 r2 with
        | .error e => .error e
        | .ok (z, r3) =>
          match readVerticesBSP r3 n with
          | .error e => .error e
          | .ok (vs, r4) => .ok (storedVertex ⟨x, y, z⟩ :: vs, r4)

/-- The edge section: pairs of 16-bit vertex indices `(v0, v1)`. -/
def readEdges : Reader → Nat → Except DecodeErr (List (Nat × Nat) × Reader)
  | r, 0 => .ok ([], r)
  | r, n + 1 =>
    match rdU16 r with
    | .error e => .error e
    | .ok (v0, r1) =>
      match rdU16 r1 with
      | .error e => .error e
      | .ok (v1, r2) =>
        match readEdges r2 n with
        | .error e => .error e
        | .ok (es, r3) => .ok ((v0, v1) :: es, r3)

/-- The texture-info section: two axis vectors, texture index, flags. -/
def readTexinfos : Reader → Nat → Except DecodeErr (List BSPTexinfo × Reader)
  | r, 0 => .ok ([], r)
  | r, n + 1 =>
    match rdF32 r with
    | .error e => .error e
    | .ok (sx, r1) =>
      match rdF32 r1 with
      | .error e => .error e
      | .ok (sy, r2) =>
        match rdF32 r2 with
        | .error e => .error e
        | .ok (sz, r3) =>
          match rdF32 r3 with
          | .error e => .error e
          | .ok (sw, r4) =>
            match rdF32 r4 with
            | .error e => .error e
            | .ok (tx, r5) =>
              match rdF32 r5 with
              | .error e => .error e
              | .ok (ty, r6) =>
                match rdF32 r6 with
                | .error e => .error e
                | .ok (tz, r7) =>
                  match rdF32 r7 with
                  | .error e => .error e
                  | .ok (tw, r8) =>
                    match rdU32 r8 with
                    | .error e => .error e
                    | .ok (mi, r9) =>
                      match rdU32 r9 with
                      | .error e => .error e
                      | .ok (fl, r10) =>
                        match readTexinfos r10 n with
                        | .error e => .error e
                        | .ok (ts, r11) =>
                          .ok (⟨⟨sx, sy, sz, sw⟩, ⟨tx, ty, tz, tw⟩, mi, fl⟩ :: ts, r11)

/-- The texture records: for each offset, seek to the record, read the
16-byte name (cut at the first NUL), dimensions and mip offsets. -/
def readMiptexs (base : Int) : Reader → List Nat → Except DecodeErr (List BSPMiptex × Reader)
  | r, [] => .ok ([], r)
  | r, off :: rest =>
    match rdBytes (seekB r (base + off)) 16 with
    | .error e => .error e
    | .ok (array, r1) =>
      let name := array.takeWhile (· ≠ 0)
      match rdU32 r1 with
      | .error e => .error e
      | .ok (width, r2) =>
        match rdU32 r2 with
        | .error e => .error e
        | .ok (height, r3) =>
          match rdU32 r3 with
          | .error e => .error e
          | .ok (o0, r4) =>
            match rdU32 r4 with
            | .error e => .error e
            | .ok (o1, r5) =>
              match rdU32 r5 with
              | .error e => .error e
              | .ok (o2, r6) =>
                match rdU32 r6 with
                | .error e => .error e
                | .ok (o3, r7) =>
                  match readMiptexs base r7 rest with
                  | .error e => .error e
                  | .ok (ms, r8) =>
                    .ok (⟨name, width, height, (o0, o1, o2, o3)⟩ :: ms, r8)

/-- The texture pixel pass: for each texture seek to its first mip
level and palette-decode `width*height` bytes. -/
def readTexturesBSP (base : Int) : Reader → List (Nat × BSPMiptex) → Except DecodeErr (List BSPTexture × Reader)
  | r, [] => .ok ([], r)
  | r, (off, mt) :: rest =>
    match readPixels (seekB r (base + off + mt.offsets.1)) (mt.width * mt.height) with
    | .error e => .error e
    | .ok (rgb, r1) =>
      match readTexturesBSP base r1 rest with
      | .error e => .error e
      | .ok (ts, r2) => .ok (⟨mt.name, mt.width, mt.height, rgb⟩ :: ts, r2)

/-- The edge-list section: signed 32-bit edge references. -/
def readLedges : Reader → Nat → Except DecodeErr (List Int × Reader)
  | r, 0 => .ok ([], r)
  | r, n + 1 =>
    match rdI32 r with
    | .error e => .error e
    | .ok (v, r1) =>
      match readLedges r1 n with
      | .error e => .error e
      | .ok (vs, r2) => .ok (v :: vs, r2)

/-- The plane section. -/
def readPlanes : Reader → Nat → Except DecodeErr (List BSPPlane × Reader)
  | r, 0 => .ok ([], r)
  | r, n + 1 =>
    match rdF32 r with
    | .error e => .error e
    | .ok (nx, r1) =>
      match rdF32 r1 with
      | .error e => .error e
      | .ok (ny, r2) =>
        match rdF32 r2 with
        | .error e => .error e
        | .ok (nz, r3) =>
          match rdF32 r3 with
          | .error e => .error e
          | .ok (dist, r4) =>
            match rdU32 r4 with
            | .error e => .error e
            | .ok (ty, r5) =>
              match readPlanes r5 n with
              | .error e => .error e
              | .ok (ps, r6) => .ok (⟨⟨nx, ny, nz⟩, dist, ty⟩ :: ps, r6)

/-- The face section. -/
def readFaces : Reader → Nat → Except DecodeErr (List BSPFace × Reader)
  | r, 0 => .ok ([], r)
  | r, n + 1 =>
    match rdU16 r with
    | .error e => .error e
    | .ok (planeIndex, r1) =>
      match rdU16 r1 with
      | .error e => .error e
      | .ok (sideRaw, r2) =>
        match rdI32 r2 with
        | .error e => .error e
        | .ok (ledgeIndex, r3) =>
          match rdU16 r3 with
          | .error e => .error e
          | .ok (numLedges, r4) =>
            match rdI16 r4 with
            | .error e => .error e
            | .ok (texInfoIndex, r5) =>
              match rdU8 r5 with
              | .error e => .error e
              | .ok (lightType, r6) =>
                match rdU8 r6 with
                | .error e => .error e
                | .ok (baseLight, r7) =>
                  match rdU8 r7 with
                  | .error e => .error e
                  | .ok (l0, r8) =>
                    match rdU8 r8 with
                    | .error e => .error e
                    | .ok (l1, r9) =>
                      match rdU32 r9 with
                      | .error e => .error e
                      | .ok (lightMap, r10) =>
                        match readFaces r10 n with
                        | .error e => .error e
                        | .ok (fs, r11) =>
                          .ok (⟨planeIndex, sideRaw ≠ 0, ledgeIndex, numLedges,
                              texInfoIndex, lightType, baseLight, (l0, l1), lightMap⟩ :: fs, r11)

/-- Edge-list entry at a possibly negative position (out-of-range
positions yield the default 0; well-formed faces stay in range). -/
def ledgeAt (ledges : List Int) (i : Int) : Int :=
  if 0 ≤ i then ledges.getD i.toNat 0 else 0

/-- Walk a face's edge-list range: each signed entry's absolute value
indexes the edge table, and the entry's sign selects which endpoint
vertex index is appended — `v0` (the first component) when the entry is
negative, `v1` (the second component) otherwise. -/
def extractPolygon (edges : List (Nat × Nat)) (ledges : List Int) : Int → Nat → List Nat
  | _, 0 => []
  | start, cnt + 1 =>
    let edgeIndex := ledgeAt ledges start
    let edge := edges.getD edgeIndex.natAbs (0, 0)
    (if edgeIndex < 0 then edge.1 else edge.2) :: extractPolygon edges ledges (start + 1) cnt

/-- Fan triangulation from polygon vertex 0: triangle `j` uses polygon
vertices `(0, j+1, j+2)`. -/
def fanTriangles (poly : List Nat) : List (Nat × Nat × Nat) :=
  (List.range (poly.length - 2)).map fun j =>
    (poly.getD 0 0, poly.getD (j + 1) 0, poly.getD (j + 2) 0)

/-- Emit one triangle corner: the position components are the stored
(already divided-by-10) vertex; for the UV projection the homogeneous
position is re-multiplied by `(10,10,10,1)` and dotted with the face's
texture axes, the `s` result divided by the texture width and the
negated `t` result by the texture height. -/
def bspCorner (stored : Vec3) (ti : BSPTexinfo) (width height : ℚ) : List ℚ × List ℚ :=
  let v : Vec4 := ⟨stored.x, stored.y, stored.z, 1⟩
  let v2 : Vec4 := ⟨v.x * 10, v.y * 10, v.z * 10, v.w * 1⟩
  ([v.x, v.y, v.z], [dot4 v2 ti.s / width, -(dot4 v2 ti.t) / height])

/-- The texture index a face renders with: its texture-info record's
`miptex` field. -/
def faceTexture (texinfos : List BSPTexinfo) (f : BSPFace) : Nat :=
  (texinfos.getD f.texInfoIndex.toNat default).miptex

/-- Reconstruct one face: extract its polygon, fan-triangulate, and
emit each corner's position and UV. -/
def faceEmit (verts : List Vec3) (edges : List (Nat × Nat)) (ledges : List Int)
    (texinfos : List BSPTexinfo) (miptexs : List BSPMiptex) (f : BSPFace) : List ℚ × List ℚ :=
  let ti := texinfos.getD f.texInfoIndex.toNat default
  let mt := miptexs.getD ti.miptex default
  let poly := extractPolygon edges ledges f.ledgeIndex f.numLedges
  let corners := (fanTriangles poly).flatMap fun t => [t.1, t.2.1, t.2.2]
  (corners.flatMap fun vi => (bspCorner (verts.getD vi default) ti (mt.width : ℚ) (mt.height : ℚ)).1,
   corners.flatMap fun vi => (bspCorner (verts.getD vi default) ti (mt.width : ℚ) (mt.height : ℚ)).2)

/-- Reconstruct all faces in table order, concatenating the per-face
position and UV buffers (the source writes them at the face's
prefix-sum offset, which yields the same buffers). -/
def emitAll (verts : List Vec3) (edges : List (Nat × Nat)) (ledges : List Int)
    (texinfos : List BSPTexinfo) (miptexs : List BSPMiptex) : List BSPFace → List ℚ × List ℚ
  | [] => ([], [])
  | f :: rest =>
    let pu := faceEmit verts edges ledges texinfos miptexs f
    let rec2 := emitAll verts edges ledges texinfos miptexs rest
    (pu.1 ++ rec2.1, pu.2 ++ rec2.2)

/-- Total triangle count accumulated over the face table (as in the
source's running `numTriangles`). -/
def bspNumTriangles (faces : List BSPFace) : Int :=
  (faces.map fun f => (f.numLedges : Int) - 2).sum

/-- The index buffer: the source writes `indices[3*index+k] = 3*index+k`
for every global triangle index, i.e. the identity on `[0, 3*nT)`. -/
def identityIndices (nT : Nat) : List Nat :=
  List.range (3 * nT)

/-- The per-face submesh records, built by walking the face table with
the running triangle offset (the source's `faceOffsets` prefix sums):
each face gets one submesh labelled with its texture index and covering
its own triangles' vertex and index ranges. -/
def subMeshesGo (texinfos : List BSPTexinfo) : Int → List BSPFace → List SubMeshRec
  | _, [] => []
  | offAcc, f :: rest =>
    let num : Int := (f.numLedges : Int) - 2
    ⟨faceTexture texinfos f, 9 * offAcc, 9 * num, 3 * offAcc, 3 * num⟩ ::
      subMeshesGo texinfos (offAcc + num) rest

/-- All submesh records, starting from triangle offset 0. -/
def subMeshes (texinfos : List BSPTexinfo) (faces : List BSPFace) : List SubMeshRec :=
  subMeshesGo texinfos 0 faces

/-- The level decoder: magic check, directory header, sections in the
source's read order, then geometry reconstruction and submesh ranges. -/
def decodeBSP (data : List Nat) : Except DecodeErr BSPOut :=
  match rdI32 ⟨data, 0⟩ with
  | .error e => .error e
  | .ok (magic, r0) =>
    if magic = 29 then
      match readBSPHeader r0 with
      | .error e => .error e
      | .ok (hdr, r1) =>
        match readVerticesBSP (seekB r1 hdr.vertices.offset) hdr.vertices.count.toNat with
        | .error e => .error e
        | .ok (verts, r2) =>
          match readEdges (seekB r2 hdr.edges.offset) hdr.edges.count.toNat with
          | .error e => .error e
          | .ok (edges, r3) =>
            match readTexinfos (seekB r3 hdr.texinfo.offset) hdr.texinfo.count.toNat with
            | .error e => .error e
            | .ok (texinfos, r4) =>
              match rdU32 (seekB r4 hdr.miptex.offset) with
              | .error e => .error e
              | .ok (mtCount, r5) =>
                match rdU32Array r5 mtCount with
                | .error e => .error e
                | .ok (mtOffsets, r6) =>
                  match readMiptexs hdr.miptex.offset r6 mtOffsets with
                  | .error e => .error e
                  | .ok (miptexs, r7) =>
                    match readTexturesBSP hdr.miptex.offset r7 (mtOffsets.zip miptexs) with
                    | .error e => .error e
                    | .ok (textures, r8) =>
                      match readLedges (seekB r8 hdr.ledges.offset) hdr.ledges.count.toNat with
                      | .error e => .error e
                      | .ok (ledges, r9) =>
                        match readPlanes (seekB r9 hdr.planes.offset) hdr.planes.count.toNat with
                        | .error e => .error e
                        | .ok (_, r10) =>
                          match readFaces (seekB r10 hdr.faces.offset) hdr.faces.count.toNat with
                          | .error e => .error e
                          | .ok (faces, _) =>
                            let pu := emitAll verts edges ledges texinfos miptexs faces
                            .ok ⟨pu.1, pu.2, identityIndices (bspNumTriangles faces).toNat,
                              subMeshes texinfos faces, textures⟩
    else .error .formatErr

/-- The level loader's `importMesh`: the mesh is pushed only after the
whole decode has succeeded, so any failure leaves the caller's mesh
collection unchanged. -/
def importMeshBSP (data : List Nat) (meshes : List BSPOut) : List BSPOut × LoadResult :=
  match decodeBSP data with
  | .error e => (meshes, toResult e)
  | .ok out => (meshes ++ [out], .ok)


/-- Length of a flat-mapped list whose blocks all have length `c`. -/
theorem flatMap_length_const {α β : Type} (f : α → List β) (c : Nat) :
    ∀ l : List α, (∀ x ∈ l, (f x).length = c) → (l.flatMap f).length = l.length * c := by
  intro l
  induction l with
  | nil => intro _; simp
  | cons x xs ih =>
    intro h
    rw [List.flatMap_cons, List.length_append, h x (by simp),
      ih fun y hy => h y (by simp [hy])]
    simp [List.length_cons]
    ring

/-- Indexing into a flat-mapped list whose blocks all have length `c`:
position `c*k + r` lands at offset `r` of block `k`. -/
theorem flatMap_getElem_block {α β : Type} (f : α → List β) (c : Nat) :
    ∀ (l : List α) (k r : Nat) (a : α), (∀ x ∈ l, (f x).length = c) →
      l[k]? = some a → r < c →
      (l.flatMap f)[c * k + r]? = (f a)[r]? := by
  intro l
  induction l with
  | nil => intro k r a _ h; simp at h
  | cons x xs ih =>
    intro k r a hlen hget hr
    cases k with
    | zero =>
      simp only [List.getElem?_cons_zero, Option.some.injEq] at hget
      subst hget
      have hx : (f x).length = c := hlen x (by simp)
      rw [List.flatMap_cons, List.getElem?_append_left (by rw [hx]; omega)]
      norm_num
    | succ k =>
      have hx : (f x).length = c := hlen x (by simp)
      rw [List.flatMap_cons, List.getElem?_append_right (by rw [hx]; nlinarith), hx]
      have hidx : c * (k + 1) + r - c = c * k + r := by
        have h2 : c * (k + 1) + r = c * k + r + c := by ring
        rw [h2, Nat.add_sub_cancel]
      rw [hidx]
      exact ih k r a (fun y hy => hlen y (by simp [hy])) (by simpa using hget) hr

/-- A list of `(start, count)` ranges tiles `[pos, total)` with no gaps
or overlaps: each range starts where the previous one ended and the
last ends at `total`. -/
def tiles : Int → List (Int × Int) → Int → Prop
  | pos, [], total => pos = total
  | pos, rng :: rest, total => rng.1 = pos ∧ tiles (pos + rng.2) rest total

/-- The polygon walk visits exactly `cnt` edge-list entries. -/
theorem extractPolygon_length (edges : List (Nat × Nat)) (ledges : List Int) :
    ∀ (cnt : Nat) (start : Int), (extractPolygon edges ledges start cnt).length = cnt := by
  intro cnt
  induction cnt with
  | zero => intro start; rfl
  | succ n ih => intro start; simp [extractPolygon, ih]

/-- The `j`-th polygon entry resolves the `j`-th edge-list entry of the
walked range. -/
theorem extractPolygon_getElem (edges : List (Nat × Nat)) (ledges : List Int) :
    ∀ (cnt j : Nat) (start : Int), j < cnt →
      (extractPolygon edges ledges start cnt)[j]? =
        some (if ledgeAt ledges (start + j) < 0
          then (edges.getD (ledgeAt ledges (start + j)).natAbs (0, 0)).1
          else (edges.getD (ledgeAt ledges (start + j)).natAbs (0, 0)).2) := by
  intro cnt
  induction cnt with
  | zero => intro j start h; omega
  | succ n ih =>
    intro j start hj
    cases j with
    | zero => simp [extractPolygon]
    | succ j =>
      have harg : start + ((j + 1 : Nat) : Int) = start + 1 + (j : Int) := by
        push_cast
        ring
      rw [extractPolygon]
      simp only [List.getElem?_cons_succ, harg]
      exact ih j (start + 1) (by omega)

/-- Claim C1 (amended): walking a face's edge-list range produces an
ordered polygon-vertex-index loop of length `edgeCount`, whose `j`-th
entry resolves the signed edge-list entry at position
`firstEdgeListIndex + j` — the entry's absolute value indexes the edge
table, and the entry resolves to `edge.v1` (the second endpoint) when
it is non-negative and to `edge.v0` (the first endpoint) when it is
negative. -/
theorem polygonWalkResolvesSignedEdges
    (edges : List (Nat × Nat)) (ledges : List Int) (start : Int) (cnt j : Nat)
    (hj : j < cnt) :
    (extractPolygon edges ledges start cnt).length = cnt ∧
    (extractPolygon edges ledges start cnt)[j]? =
      some (if ledgeAt ledges (start + j) < 0
        then (edges.getD (ledgeAt ledges (start + j)).natAbs (0, 0)).1
        else (edges.getD (ledgeAt ledges (start + j)).natAbs (0, 0)).2) :=
  ⟨extractPolygon_length edges ledges cnt start,
   extractPolygon_getElem edges ledges cnt j start hj⟩

/-- Concrete instance of the amended claim C1 at edge table
`[(0,0),(5,7)]`, edge list `[1]`, range start 0, length 1. -/
theorem polygonWalkResolvesSignedEdges_witness :
    (0 : Nat) < 1 ∧
    ((extractPolygon [(0, 0), (5, 7)] [1] 0 1).length = 1 ∧
     (extractPolygon [(0, 0), (5, 7)] [1] 0 1)[0]? =
       some (if ledgeAt [1] (0 + (0 : Nat)) < 0
         then ((List.getD [(0, 0), (5, 7)] (ledgeAt [1] (0 + (0 : Nat))).natAbs (0, 0))).1
         else ((List.getD [(0, 0), (5, 7)] (ledgeAt [1] (0 + (0 : Nat))).natAbs (0, 0))).2)) :=
  ⟨by decide, polygonWalkResolvesSignedEdges [(0, 0), (5, 7)] [1] 0 1 0 (by decide)⟩

/-- Modelled from the claim's words for C1: resolve a signed edge-list
entry to `edge.v0` when the sign is positive and `edge.v1` when it is
negative. -/
def c1ClaimVertex (edge : Nat × Nat) (entry : Int) : Nat :=
  if entry < 0 then edge.2 else edge.1

/-- Claim C1 (counterexample): with edge 1 = `(v0 = 5, v1 = 7)` and the
single positive edge-list entry `1`, the code's walk produces `[7]`
(the edge's `v1`), while the claim's resolution rule gives `v0 = 5`:
the code resolves positive entries to `v1`, not `v0`. -/
theorem c1_positive_entry_resolves_v1_not_v0 :
    extractPolygon [(0, 0), (5, 7)] [1] 0 1 = [7] ∧
    c1ClaimVertex (5, 7) 1 = 5 ∧
    extractPolygon [(0, 0), (5, 7)] [1] 0 1 ≠ [c1ClaimVertex (5, 7) 1] := by
  decide

/-- Claim C3: for every level triangle corner, the emitted position is
the raw vertex coordinate divided by the fixed divisor 10 uniformly on
all axes, while the corner's UV is the dot product of the unscaled
(original-unit) homogeneous position with the face's `s` axis divided
by the texture width, and the negated dot product with the `t` axis
divided by the texture height: the re-multiplication by 10 inside
`bspCorner` exactly cancels the stored 1/10 scale, keeping the two
position scales distinct. -/
theorem cornerKeepsTwoScales (raw : Vec3) (ti : BSPTexinfo) (width height : ℚ) :
    bspCorner (storedVertex raw) ti width height =
      ([raw.x / 10, raw.y / 10, raw.z / 10],
       [dot4 ⟨raw.x, raw.y, raw.z, 1⟩ ti.s / width,
        -(dot4 ⟨raw.x, raw.y, raw.z, 1⟩ ti.t) / height]) := by
  simp only [bspCorner, storedVertex, dot4, Prod.mk.injEq, List.cons.injEq]
  norm_num


/-- Total triangle count over the face table, in `Nat` (truncated
subtraction agrees with the source's arithmetic when every face has at
least 2 edges). -/
def natTriangles (faces : List BSPFace) : Nat :=
  (faces.map fun f => f.numLedges - 2).sum

/-- With at least two edges per face, the source's integer triangle
count agrees with the truncated one. -/
theorem bspNumTriangles_eq (faces : List BSPFace) (h : ∀ f ∈ faces, 2 ≤ f.numLedges) :
    bspNumTriangles faces = (natTriangles faces : Int) := by
  induction faces with
  | nil => rfl
  | cons f rest ih =>
    have hf : 2 ≤ f.numLedges := h f (by simp)
    have hrest := ih fun g hg => h g (by simp [hg])
    simp only [bspNumTriangles, natTriangles, List.map_cons, List.sum_cons] at *
    rw [hrest]
    push_cast
    omega

/-- The submesh walk starting at triangle offset `offAcc` tiles the
index range from `3*offAcc` to `3*(offAcc + total triangles)`. -/
theorem subMeshesGo_tiles (texinfos : List BSPTexinfo) :
    ∀ (faces : List BSPFace) (offAcc : Int),
      tiles (3 * offAcc)
        ((subMeshesGo texinfos offAcc faces).map fun sm => (sm.indicesStart, sm.indicesCount))
        (3 * (offAcc + bspNumTriangles faces)) := by
  intro faces
  induction faces with
  | nil =>
    intro offAcc
    simp [subMeshesGo, tiles, bspNumTriangles]
  | cons f rest ih =>
    intro offAcc
    simp only [subMeshesGo, List.map_cons]
    refine ⟨rfl, ?_⟩
    have h := ih (offAcc + ((f.numLedges : Int) - 2))
    have h1 : 3 * (offAcc + ((f.numLedges : Int) - 2)) =
        3 * offAcc + 3 * ((f.numLedges : Int) - 2) := by ring
    have h2 : 3 * (offAcc + ((f.numLedges : Int) - 2) + bspNumTriangles rest) =
        3 * (offAcc + bspNumTriangles (f :: rest)) := by
      simp only [bspNumTriangles, List.map_cons, List.sum_cons]
      ring
    rw [h1, h2] at h
    exact h

/-- Each submesh record carries its face's texture index, in face-table
order. -/
theorem subMeshesGo_materials (texinfos : List BSPTexinfo) :
    ∀ (faces : List BSPFace) (offAcc : Int),
      (subMeshesGo texinfos offAcc faces).map (·.materialIndex) =
        faces.map (faceTexture texinfos) := by
  intro faces
  induction faces with
  | nil => intro _; rfl
  | cons f rest ih =>
    intro offAcc
    simp [subMeshesGo, ih]

/-- Flattening triangles to their three corner indices triples the
length. -/
theorem corners_flatMap_length (tris : List (Nat × Nat × Nat)) :
    (tris.flatMap fun t => [t.1, t.2.1, t.2.2]).length = tris.length * 3 :=
  flatMap_length_const _ 3 tris fun _ _ => rfl

/-- Each corner emission contributes three position floats. -/
theorem bspCorner_flatMap_length (verts : List Vec3) (ti : BSPTexinfo) (w h : ℚ)
    (l : List Nat) :
    (l.flatMap fun vi => (bspCorner (verts.getD vi default) ti w h).1).length =
      l.length * 3 :=
  flatMap_length_const _ 3 l fun _ _ => rfl

/-- One face emits `9*(numLedges-2)` position floats (three corners of
three floats per fan triangle). -/
theorem faceEmit_positions_length (verts : List Vec3) (edges : List (Nat × Nat))
    (ledges : List Int) (texinfos : List BSPTexinfo) (miptexs : List BSPMiptex) (f : BSPFace) :
    (faceEmit verts edges ledges texinfos miptexs f).1.length = 9 * (f.numLedges - 2) := by
  unfold faceEmit
  simp only
  rw [bspCorner_flatMap_length, corners_flatMap_length]
  simp only [fanTriangles, List.length_map, List.length_range,
    extractPolygon_length]
  ring

/-- The whole reconstruction emits `9 * natTriangles` position floats. -/
theorem emitAll_positions_length (verts : List Vec3) (edges : List (Nat × Nat))
    (ledges : List Int) (texinfos : List BSPTexinfo) (miptexs : List BSPMiptex) :
    ∀ faces : List BSPFace,
      (emitAll verts edges ledges texinfos miptexs faces).1.length =
        9 * natTriangles faces := by
  intro faces
  induction faces with
  | nil => rfl
  | cons f rest ih =>
    simp only [emitAll, List.length_append, ih, faceEmit_positions_length,
      natTriangles, List.map_cons, List.sum_cons]
    ring

/-- Claim C5 (amended): for all valid level inputs (every face with at
least two edge-list entries), the emitted position buffer holds
`3*(3*numTriangles)` floats — i.e. `positionCount = 3*numTriangles`
positions — every emitted triangle index lies in `[0, positionCount)`,
the render groups' index ranges partition the full index buffer with no
gaps or overlaps, and there is one render group per face, labelled with
that face's texture reference (not one per distinct texture). -/
theorem perFaceGroupsPartitionIndexBuffer
    (faces : List BSPFace) (texinfos : List BSPTexinfo) (verts : List Vec3)
    (edges : List (Nat × Nat)) (ledges : List Int) (miptexs : List BSPMiptex)
    (hL : ∀ f ∈ faces, 2 ≤ f.numLedges) :
    (emitAll verts edges ledges texinfos miptexs faces).1.length =
      3 * (3 * (bspNumTriangles faces).toNat) ∧
    (∀ ix ∈ identityIndices (bspNumTriangles faces).toNat,
      ix < 3 * (bspNumTriangles faces).toNat) ∧
    tiles 0 ((subMeshes texinfos faces).map fun sm => (sm.indicesStart, sm.indicesCount))
      (3 * bspNumTriangles faces) ∧
    (subMeshes texinfos faces).map (·.materialIndex) = faces.map (faceTexture texinfos) := by
  have hnat := bspNumTriangles_eq faces hL
  refine ⟨?_, ?_, ?_, subMeshesGo_materials texinfos faces 0⟩
  · rw [emitAll_positions_length, hnat]
    simp only [Int.toNat_natCast]
    ring
  · intro ix hix
    simpa [identityIndices, List.mem_range] using hix
  · have h := subMeshesGo_tiles texinfos faces 0
    simpa using h

/-- A minimal triangular face referencing texture-info 0. -/
def c5Face : BSPFace := ⟨0, false, 0, 3, 0, 0, 0, (0, 0), 0⟩

/-- A texture-info record referencing texture 0. -/
def c5Texinfo : BSPTexinfo := ⟨⟨0, 0, 0, 0⟩, ⟨0, 0, 0, 0⟩, 0, 0⟩

/-- Concrete instance of the amended claim C5: a single triangular
face. -/
theorem perFaceGroupsPartitionIndexBuffer_witness :
    (∀ f ∈ [c5Face], 2 ≤ f.numLedges) ∧
    ((emitAll [] [] [] [c5Texinfo] [] [c5Face]).1.length =
      3 * (3 * (bspNumTriangles [c5Face]).toNat) ∧
    (∀ ix ∈ identityIndices (bspNumTriangles [c5Face]).toNat,
      ix < 3 * (bspNumTriangles [c5Face]).toNat) ∧
    tiles 0 ((subMeshes [c5Texinfo] [c5Face]).map fun sm => (sm.indicesStart, sm.indicesCount))
      (3 * bspNumTriangles [c5Face]) ∧
    (subMeshes [c5Texinfo] [c5Face]).map (·.materialIndex) =
      [c5Face].map (faceTexture [c5Texinfo])) :=
  ⟨by decide, perFaceGroupsPartitionIndexBuffer [c5Face] [c5Texinfo] [] [] [] [] (by decide)⟩

/-- Claim C5 (counterexample): two faces referencing the same texture
produce two render groups — one per face — although there is only one
distinct texture reference, contradicting "one renderable group per
distinct TexInfo texture reference". -/
theorem c5_groups_are_per_face_not_per_texture :
    (subMeshes [c5Texinfo] [c5Face, c5Face]).length = 2 ∧
    (([c5Face, c5Face].map (faceTexture [c5Texinfo])).dedup).length = 1 ∧
    (2 : Nat) ≠ 1 := by
  decide


/-- The corner UV `s` value as computed by `buildUVs2` (the source's
seam-shift-then-normalise expression). -/
def uvS (w : ℚ) (indices faceFront onSeam : List Nat) (uvs : List ℚ) (i j : Nat) : ℚ :=
  let vertexIndex := indices.getD (3 * i + j) 0
  let s := uvs.getD (2 * vertexIndex) 0
  let s2 := if faceFront.getD i 0 = 0 ∧ onSeam.getD vertexIndex 0 ≠ 0 then s + 1 / 2 * w else s
  (s2 + 1 / 2) / w

/-- The corner UV `t` value as computed by `buildUVs2`. -/
def uvT (h : ℚ) (indices : List Nat) (uvs : List ℚ) (i j : Nat) : ℚ :=
  (uvs.getD (2 * indices.getD (3 * i + j) 0 + 1) 0 + 1 / 2) / h

/-- Rewriting `buildUVs2` with its per-corner values named. -/
theorem buildUVs2_eq (T : Nat) (w h : ℚ) (indices faceFront onSeam : List Nat)
    (uvs : List ℚ) :
    buildUVs2 T w h indices faceFront onSeam uvs =
      (List.range T).flatMap fun i => (List.range 3).flatMap fun j =>
        [uvS w indices faceFront onSeam uvs i j, uvT h indices uvs i j] := rfl

/-- Reading the `s` slot of corner `(i, j)` out of the flat UV buffer. -/
theorem buildUVs2_getElem_s (T : Nat) (w h : ℚ) (indices faceFront onSeam : List Nat)
    (uvs : List ℚ) (i j : Nat) (hi : i < T) (hj : j < 3) :
    (buildUVs2 T w h indices faceFront onSeam uvs)[2 * (3 * i + j)]? =
      some (uvS w indices faceFront onSeam uvs i j) := by
  rw [buildUVs2_eq]
  have h6 : ∀ x ∈ List.range T,
      ((fun i => (List.range 3).flatMap fun j =>
        [uvS w indices faceFront onSeam uvs i j, uvT h indices uvs i j]) x).length = 6 := by
    intro x _
    have := flatMap_length_const
      (fun j => [uvS w indices faceFront onSeam uvs x j, uvT h indices uvs x j]) 2
      (List.range 3) fun _ _ => rfl
    simpa using this
  have hidx : 2 * (3 * i + j) = 6 * i + 2 * j := by ring
  rw [hidx]
  rw [flatMap_getElem_block _ 6 (List.range T) i (2 * j) i h6
    (List.getElem?_range hi) (by omega)]
  have h2 : ∀ x ∈ List.range 3,
      ((fun j => [uvS w indices faceFront onSeam uvs i j, uvT h indices uvs i j]) x).length
        = 2 := fun _ _ => rfl
  have hj0 : 2 * j = 2 * j + 0 := rfl
  rw [hj0, flatMap_getElem_block _ 2 (List.range 3) j 0 j h2
    (List.getElem?_range hj) (by omega)]
  rfl

/-- Reading the `t` slot of corner `(i, j)` out of the flat UV buffer. -/
theorem buildUVs2_getElem_t (T : Nat) (w h : ℚ) (indices faceFront onSeam : List Nat)
    (uvs : List ℚ) (i j : Nat) (hi : i < T) (hj : j < 3) :
    (buildUVs2 T w h indices faceFront onSeam uvs)[2 * (3 * i + j) + 1]? =
      some (uvT h indices uvs i j) := by
  rw [buildUVs2_eq]
  have h6 : ∀ x ∈ List.range T,
      ((fun i => (List.range 3).flatMap fun j =>
        [uvS w indices faceFront onSeam uvs i j, uvT h indices uvs i j]) x).length = 6 := by
    intro x _
    have := flatMap_length_const
      (fun j => [uvS w indices faceFront onSeam uvs x j, uvT h indices uvs x j]) 2
      (List.range 3) fun _ _ => rfl
    simpa using this
  have hidx : 2 * (3 * i + j) + 1 = 6 * i + (2 * j + 1) := by ring
  rw [hidx]
  rw [flatMap_getElem_block _ 6 (List.range T) i (2 * j + 1) i h6
    (List.getElem?_range hi) (by omega)]
  have h2 : ∀ x ∈ List.range 3,
      ((fun j => [uvS w indices faceFront onSeam uvs i j, uvT h indices uvs i j]) x).length
        = 2 := fun _ _ => rfl
  rw [flatMap_getElem_block _ 2 (List.range 3) j 1 j h2
    (List.getElem?_range hj) (by omega)]
  rfl

/-- Claim C2: for every model triangle corner `(i, j)` referencing
vertex `v`, the output UV is
`((rawS + (onSeam[v] ∧ ¬facesFront[i] ? 0.5*skinWidth : 0) + 0.5) / skinWidth,
  (rawT + 0.5) / skinHeight)`, the seam offset using the containing
triangle's `facesFront` flag; consequently a seam vertex appearing in a
front-facing and a non-front-facing triangle gets two different `s`
values at its two corner occurrences, differing by exactly
`0.5*skinWidth` texels (`0.5` after division by the skin width). -/
theorem seamUVUsesTriangleFacesFront
    (T : Nat) (w h : ℚ) (indices faceFront onSeam : List Nat) (uvs : List ℚ)
    (i j v : Nat) (hi : i < T) (hj : j < 3) (hv : indices.getD (3 * i + j) 0 = v) :
    ((buildUVs2 T w h indices faceFront onSeam uvs)[2 * (3 * i + j)]? =
      some ((uvs.getD (2 * v) 0 +
        (if onSeam.getD v 0 ≠ 0 ∧ faceFront.getD i 0 = 0 then 1 / 2 * w else 0) +
        1 / 2) / w) ∧
     (buildUVs2 T w h indices faceFront onSeam uvs)[2 * (3 * i + j) + 1]? =
      some ((uvs.getD (2 * v + 1) 0 + 1 / 2) / h)) ∧
    (∀ i2 j2 : Nat, i2 < T → j2 < 3 → indices.getD (3 * i2 + j2) 0 = v →
      onSeam.getD v 0 ≠ 0 → faceFront.getD i 0 = 0 → faceFront.getD i2 0 ≠ 0 →
      ∃ s1 s2 : ℚ,
        (buildUVs2 T w h indices faceFront onSeam uvs)[2 * (3 * i + j)]? = some s1 ∧
        (buildUVs2 T w h indices faceFront onSeam uvs)[2 * (3 * i2 + j2)]? = some s2 ∧
        s1 - s2 = 1 / 2 * w / w ∧
        (w ≠ 0 → s1 - s2 = 1 / 2 ∧ s1 ≠ s2)) := by
  constructor
  · constructor
    · rw [buildUVs2_getElem_s T w h indices faceFront onSeam uvs i j hi hj]
      congr 1
      simp only [uvS, hv]
      by_cases hc : faceFront.getD i 0 = 0 ∧ onSeam.getD v 0 ≠ 0
      · rw [if_pos hc, if_pos ⟨hc.2, hc.1⟩]
      · rw [if_neg hc, if_neg fun hc2 => hc ⟨hc2.2, hc2.1⟩]
        ring
    · rw [buildUVs2_getElem_t T w h indices faceFront onSeam uvs i j hi hj]
      simp only [uvT, hv]
  · intro i2 j2 hi2 hj2 hv2 hseam hff hff2
    refine ⟨uvS w indices faceFront onSeam uvs i j, uvS w indices faceFront onSeam uvs i2 j2,
      buildUVs2_getElem_s T w h indices faceFront onSeam uvs i j hi hj,
      buildUVs2_getElem_s T w h indices faceFront onSeam uvs i2 j2 hi2 hj2, ?_, ?_⟩
    · simp only [uvS, hv, hv2]
      rw [if_pos ⟨hff, hseam⟩, if_neg fun hc => hff2 hc.1]
      rw [div_sub_div_same]
      congr 1
      ring
    · intro hw
      have hd : uvS w indices faceFront onSeam uvs i j -
          uvS w indices faceFront onSeam uvs i2 j2 = 1 / 2 := by
        simp only [uvS, hv, hv2]
        rw [if_pos ⟨hff, hseam⟩, if_neg fun hc => hff2 hc.1]
        rw [div_sub_div_same]
        have harg : uvs.getD (2 * v) 0 + 1 / 2 * w + 1 / 2 -
            (uvs.getD (2 * v) 0 + 1 / 2) = 1 / 2 * w := by ring
        rw [harg, mul_div_assoc, div_self hw, mul_one]
      refine ⟨hd, ?_⟩
      intro heq
      rw [heq, sub_self] at hd
      norm_num at hd

/-- Concrete instance of claim C2: skin 8×8, one seam vertex shared by
a front-facing and a non-front-facing triangle. -/
theorem seamUVUsesTriangleFacesFront_witness :
    (0 : Nat) < 2 ∧
    (∃ s1 s2 : ℚ,
      (buildUVs2 2 8 8 [0, 0, 0, 0, 0, 0] [0, 1] [1] [3, 4])[2 * (3 * 0 + 0)]? = some s1 ∧
      (buildUVs2 2 8 8 [0, 0, 0, 0, 0, 0] [0, 1] [1] [3, 4])[2 * (3 * 1 + 0)]? = some s2 ∧
      s1 - s2 = 1 / 2 * 8 / 8 ∧
      ((8 : ℚ) ≠ 0 → s1 - s2 = 1 / 2 ∧ s1 ≠ s2)) :=
  ⟨by decide,
   (seamUVUsesTriangleFacesFront 2 8 8 [0, 0, 0, 0, 0, 0] [0, 1] [1] [3, 4] 0 0 0
      (by decide) (by decide) (by decide)).2 1 0
      (by decide) (by decide) (by decide) (by decide) (by decide) (by decide)⟩


/-- A run of `n` zero bytes. -/
def zeros (n : Nat) : List Nat :=
  List.replicate n 0

/-- A model header with one vertex, one frame, and no skins or
triangles. -/
def c4Header : MDLHeader :=
  ⟨⟨0, 0, 0⟩, ⟨0, 0, 0⟩, 0, 0, 0, 1, 0, 1⟩

/-- A grouped-frame record body (after the frame-type flag): sub-frame
count 1 followed by 44 zero bytes. -/
def c4Buf : List Nat :=
  [1, 0, 0, 0] ++ zeros 44

set_option maxRecDepth 40000 in
/-- Claim C4: on a grouped frame with 1 sub-frame and 1 vertex the code
advances the cursor 48 bytes past the frame-type flag, while the record
as laid out in the claim (4-byte count, two 4-byte bounding-box
records, one 4-byte interval, one 4+4+16+4 byte sub-frame) occupies 44
bytes: the grouped branch skips `3*4` bytes for the `min, max` pair
that its own `parseFrame` treats as `2*4` bytes, so every grouped frame
leaves the cursor 4 bytes past the record and misaligns all subsequent
frame records. -/
theorem groupFrameOvershootsRecordBy4 :
    groupBranch c4Header ⟨c4Buf, 0⟩ = .ok ⟨c4Buf, 48⟩ ∧
    specGroupFrameRecordBytes 1 1 = 44 ∧ (48 : Int) ≠ 44 :=
  ⟨by rfl, by decide, by decide⟩

/-- A well-formed 128-byte model input: one vertex, one non-grouped
frame, and that frame's single vertex record carrying normal-index byte
162. -/
def c10Buf : List Nat :=
  [73, 68, 80, 79] ++ [6, 0, 0, 0] ++ zeros 40 ++ zeros 12 ++ [1, 0, 0, 0] ++ zeros 4 ++
    [1, 0, 0, 0] ++ zeros 12 ++ zeros 12 ++ zeros 4 ++ zeros 24 ++ [0, 0, 0, 162]

set_option maxRecDepth 100000 in
/-- Claim C10: the 162-entry unit-normal table together with an
unchecked normal-index byte makes the out-of-bounds lookup branch
reachable at the public decode interface: on `c10Buf` — a well-formed
model input whose single frame vertex has normal-index byte 162 — the
decode reaches the out-of-bounds branch of the normal lookup. -/
theorem normalIndexOutOfBoundsReachable :
    anormals.length = 162 ∧
    (importMeshMDL c10Buf []).2 = .thrown .normalOOB :=
  ⟨by rfl, by rfl⟩

/-- A valid-magic model buffer truncated right before its single frame
record. -/
def c9Buf : List Nat :=
  [73, 68, 80, 79] ++ [6, 0, 0, 0] ++ zeros 40 ++ zeros 20 ++ [1, 0, 0, 0] ++ zeros 12

set_option maxRecDepth 100000 in
/-- Claim C9 (counterexample): on `c9Buf` the read of the frame-type
word runs past the end of the buffer after the mesh has already been
pushed: the error does surface as a typed failure, but the
caller-visible meshes collection has changed — decoding is not
all-or-nothing for errors raised during frame parsing. -/
theorem c9_out_of_bounds_error_mutates_meshes :
    (importMeshMDL c9Buf []).2 = .thrown .boundsErr ∧
    (importMeshMDL c9Buf []).1 ≠ ([] : List MDLMesh) := by
  decide

/-- Claim C9 (amended): every decode failure is propagated to the
caller as a typed failure value; failures the model loader returns
(bad magic or version, unsupported group skin — all raised before the
mesh is pushed) leave the caller's meshes collection unchanged, and the
level loader leaves it unchanged on every failure since it pushes only
after a complete decode; but a model-loader error thrown during frame
parsing surfaces after the push, so there the collection may retain the
partially-populated mesh. -/
theorem returnedFailuresLeaveMeshesUnchanged
    (data : List Nat) (mdlMeshes : List MDLMesh) (bspMeshes : List BSPOut) (e : DecodeErr) :
    ((importMeshMDL data mdlMeshes).2 = .failed e →
      (importMeshMDL data mdlMeshes).1 = mdlMeshes) ∧
    ((importMeshBSP data bspMeshes).2 ≠ .ok →
      (importMeshBSP data bspMeshes).1 = bspMeshes) := by
  constructor
  · intro hf
    unfold importMeshMDL at hf ⊢
    cases hpre : mdlPre data with
    | error err => simp only [hpre]
    | ok st =>
      rw [hpre] at hf
      simp only at hf
      cases hfl : frameLoop st.hdr st.onSeam st.faceFront st.indices st.uvs st.rdr
          st.hdr.numFrames.toNat with
      | error pe =>
        rw [hfl] at hf
        simp at hf
      | ok res =>
        rw [hfl] at hf
        simp at hf
  · intro hne
    unfold importMeshBSP at hne ⊢
    cases hd : decodeBSP data with
    | error err => simp only [hd]
    | ok out =>
      rw [hd] at hne
      simp at hne

/-- Concrete instance of the amended claim C9: a 4-byte buffer with a
bad magic value leaves both loaders' mesh collections unchanged. -/
theorem returnedFailuresLeaveMeshesUnchanged_witness :
    (importMeshMDL [0, 0, 0, 0] []).1 = ([] : List MDLMesh) ∧
    (importMeshBSP [0, 0, 0, 0] []).1 = ([] : List BSPOut) :=
  ⟨(returnedFailuresLeaveMeshesUnchanged [0, 0, 0, 0] [] [] .formatErr).1 (by decide),
   (returnedFailuresLeaveMeshesUnchanged [0, 0, 0, 0] [] [] .formatErr).2 (by decide)⟩

/-- A successful signed 32-bit read at an in-bounds offset. -/
theorem rdI32_ok (data : List Nat) (off : Int) (h0 : 0 ≤ off)
    (h4 : off + 4 ≤ (data.length : Int)) :
    rdI32 ⟨data, off⟩ = .ok (i32At data off, ⟨data, off + 4⟩) := by
  simp [rdI32, h0, h4]

/-- Claim C8: a level buffer whose leading little-endian signed 32-bit
word is anything but 29 — the alternate extended-format magic included
— yields the format error as a typed failure value with the caller's
meshes untouched: no other magic value has a fallback decoding path. -/
theorem badLevelMagicIsFormatError (data : List Nat) (meshes : List BSPOut)
    (hlen : 4 ≤ data.length) (hmagic : i32At data 0 ≠ 29) :
    importMeshBSP data meshes = (meshes, .failed .formatErr) := by
  unfold importMeshBSP decodeBSP
  rw [rdI32_ok data 0 (by norm_num) (by omega)]
  simp only
  rw [if_neg hmagic]
  rfl

/-- Concrete instance of claim C8 at the alternate extended-format
magic (ASCII `BSP2`, value 844124994). -/
theorem badLevelMagicIsFormatError_witness :
    i32At [66, 83, 80, 50] 0 = 844124994 ∧
    importMeshBSP [66, 83, 80, 50] [] = ([], .failed .formatErr) :=
  ⟨by decide, badLevelMagicIsFormatError [66, 83, 80, 50] [] (by decide) (by decide)⟩


/-- The per-corner position expansion always yields `3*(3*T)` floats. -/
theorem buildPositions2_length (T : Nat) (indices : List Nat) (fp : List ℚ) :
    (buildPositions2 T indices fp).length = 3 * (3 * T) := by
  have h9 : ∀ x ∈ List.range T,
      ((fun i => (List.range 3).flatMap fun j =>
        [fp.getD (3 * (indices.getD (3 * i + j) 0)) 0,
         fp.getD (3 * (indices.getD (3 * i + j) 0) + 1) 0,
         fp.getD (3 * (indices.getD (3 * i + j) 0) + 2) 0]) x).length = 9 := by
    intro x _
    have := flatMap_length_const (fun j =>
      [fp.getD (3 * (indices.getD (3 * x + j) 0)) 0,
       fp.getD (3 * (indices.getD (3 * x + j) 0) + 1) 0,
       fp.getD (3 * (indices.getD (3 * x + j) 0) + 2) 0]) 3 (List.range 3) fun _ _ => rfl
    simpa using this
  calc (buildPositions2 T indices fp).length
      = (List.range T).length * 9 := flatMap_length_const _ 9 (List.range T) h9
    _ = 3 * (3 * T) := by simp [List.length_range]; ring

/-- The per-corner normal expansion always yields `3*(3*T)` floats. -/
theorem buildNormals2_length (T : Nat) (indices : List Nat) (fn : List ℚ) :
    (buildNormals2 T indices fn).length = 3 * (3 * T) := by
  have h9 : ∀ x ∈ List.range T,
      ((fun i => (List.range 3).flatMap fun j =>
        [fn.getD (3 * (indices.getD (3 * i + j) 0)) 0,
         fn.getD (3 * (indices.getD (3 * i + j) 0) + 1) 0,
         fn.getD (3 * (indices.getD (3 * i + j) 0) + 2) 0]) x).length = 9 := by
    intro x _
    have := flatMap_length_const (fun j =>
      [fn.getD (3 * (indices.getD (3 * x + j) 0)) 0,
       fn.getD (3 * (indices.getD (3 * x + j) 0) + 1) 0,
       fn.getD (3 * (indices.getD (3 * x + j) 0) + 2) 0]) 3 (List.range 3) fun _ _ => rfl
    simpa using this
  calc (buildNormals2 T indices fn).length
      = (List.range T).length * 9 := flatMap_length_const _ 9 (List.range T) h9
    _ = 3 * (3 * T) := by simp [List.length_range]; ring

/-- The per-corner UV expansion always yields `2*(3*T)` floats. -/
theorem buildUVs2_length (T : Nat) (w h : ℚ) (indices faceFront onSeam : List Nat)
    (uvs : List ℚ) :
    (buildUVs2 T w h indices faceFront onSeam uvs).length = 2 * (3 * T) := by
  rw [buildUVs2_eq]
  have h6 : ∀ x ∈ List.range T,
      ((fun i => (List.range 3).flatMap fun j =>
        [uvS w indices faceFront onSeam uvs i j, uvT h indices uvs i j]) x).length = 6 := by
    intro x _
    have := flatMap_length_const
      (fun j => [uvS w indices faceFront onSeam uvs x j, uvT h indices uvs x j]) 2
      (List.range 3) fun _ _ => rfl
    simpa using this
  calc ((List.range T).flatMap fun i => (List.range 3).flatMap fun j =>
        [uvS w indices faceFront onSeam uvs i j, uvT h indices uvs i j]).length
      = (List.range T).length * 6 := flatMap_length_const _ 6 (List.range T) h6
    _ = 2 * (3 * T) := by simp [List.length_range]; ring

/-- Claim C6: whenever the frame loop completes, the number of output
snapshots equals the number of non-grouped frame records among the
records actually read (grouped records contribute none), and every
snapshot's positions, normals and uvs buffers have lengths
`3*3*numTriangles`, `3*3*numTriangles` and `2*3*numTriangles`. -/
theorem framesMatchNonGroupedRecords (hdr : MDLHeader)
    (onSeam faceFront indices : List Nat) (uvs : List ℚ) (n : Nat) :
    ∀ (r r2 : Reader) (snaps : List MDLSnapshot) (kinds : List Bool),
      frameLoop hdr onSeam faceFront indices uvs r n = .ok (r2, snaps, kinds) →
      kinds.length = n ∧
      snaps.length = kinds.count false ∧
      ∀ s ∈ snaps,
        s.positions.length = 3 * (3 * hdr.numTriangles.toNat) ∧
        s.normals.length = 3 * (3 * hdr.numTriangles.toNat) ∧
        s.uvs.length = 2 * (3 * hdr.numTriangles.toNat) := by
  induction n with
  | zero =>
    intro r r2 snaps kinds hok
    rw [frameLoop] at hok
    simp only [Except.ok.injEq, Prod.mk.injEq] at hok
    obtain ⟨-, hs, hk⟩ := hok
    subst hs
    subst hk
    simp
  | succ n ih =>
    intro r r2 snaps kinds hok
    rw [frameLoop] at hok
    cases hty : rdI32 r with
    | error e =>
      rw [hty] at hok
      simp at hok
    | ok tyr =>
      obtain ⟨frameType, r1⟩ := tyr
      rw [hty] at hok
      dsimp only at hok
      by_cases h0 : frameType = 0
      · rw [if_pos h0] at hok
        cases hpf : parseFrame hdr r1 with
        | error e =>
          rw [hpf] at hok
          simp at hok
        | ok res =>
          obtain ⟨fp, fnr⟩ := res
          obtain ⟨fn, rr⟩ := fnr
          rw [hpf] at hok
          dsimp only at hok
          cases hfl : frameLoop hdr onSeam faceFront indices uvs rr n with
          | error pe =>
            rw [hfl] at hok
            simp at hok
          | ok res2 =>
            obtain ⟨r3, rest⟩ := res2
            obtain ⟨snaps2, kinds2⟩ := rest
            rw [hfl] at hok
            simp only [Except.ok.injEq, Prod.mk.injEq] at hok
            obtain ⟨-, hs, hk⟩ := hok
            subst hs
            subst hk
            obtain ⟨ih1, ih2, ih3⟩ := ih rr r3 snaps2 kinds2 hfl
            refine ⟨by simp [ih1], by simp [List.count_cons, ih2], ?_⟩
            intro s hsm
            rcases List.mem_cons.mp hsm with hsm | hsm
            · subst hsm
              exact ⟨buildPositions2_length _ _ _, buildNormals2_length _ _ _,
                buildUVs2_length _ _ _ _ _ _ _⟩
            · exact ih3 s hsm
      · rw [if_neg h0] at hok
        cases hgb : groupBranch hdr r1 with
        | error e =>
          rw [hgb] at hok
          simp at hok
        | ok rg =>
          rw [hgb] at hok
          dsimp only at hok
          cases hfl : frameLoop hdr onSeam faceFront indices uvs rg n with
          | error pe =>
            rw [hfl] at hok
            simp at hok
          | ok res2 =>
            obtain ⟨r3, rest⟩ := res2
            obtain ⟨snaps2, kinds2⟩ := rest
            rw [hfl] at hok
            simp only [Except.ok.injEq, Prod.mk.injEq] at hok
            obtain ⟨-, hs, hk⟩ := hok
            subst hs
            subst hk
            obtain ⟨ih1, ih2, ih3⟩ := ih rg r3 snaps2 kinds2 hfl
            exact ⟨by simp [ih1], by simpa [List.count_cons] using ih2, ih3⟩

/-- An all-zero model header with a single frame record. -/
def c6Hdr : MDLHeader :=
  ⟨⟨0, 0, 0⟩, ⟨0, 0, 0⟩, 0, 0, 0, 0, 0, 1⟩

set_option maxRecDepth 40000 in
/-- Concrete instance of claim C6: one non-grouped frame record over an
empty vertex/triangle model. -/
theorem framesMatchNonGroupedRecords_witness :
    ([false] : List Bool).length = 1 ∧
    ([(⟨[], [], []⟩ : MDLSnapshot)].length = ([false] : List Bool).count false) ∧
    (∀ s ∈ [(⟨[], [], []⟩ : MDLSnapshot)],
      s.positions.length = 3 * (3 * c6Hdr.numTriangles.toNat) ∧
      s.normals.length = 3 * (3 * c6Hdr.numTriangles.toNat) ∧
      s.uvs.length = 2 * (3 * c6Hdr.numTriangles.toNat)) :=
  framesMatchNonGroupedRecords c6Hdr [] [] [] [] 1 ⟨zeros 4, 0⟩ ⟨zeros 4, 28⟩
    [⟨[], [], []⟩] [false] (by rfl)

/-- A successful float read at an in-bounds offset. -/
theorem rdF32_ok (data : List Nat) (off : Int) (h0 : 0 ≤ off)
    (h4 : off + 4 ≤ (data.length : Int)) :
    rdF32 ⟨data, off⟩ = .ok (f32ToRat (u32At data off), ⟨data, off + 4⟩) := by
  simp [rdF32, h0, h4]

/-- Evaluating the model header parse at offset 8 (right after the
magic and version words) on any sufficiently long buffer. -/
theorem readMDLHeader_ok8 (data : List Nat) (hlen : 88 ≤ (data.length : Int)) :
    readMDLHeader ⟨data, 8⟩ = .ok
      (⟨⟨f32ToRat (u32At data 8), f32ToRat (u32At data 12), f32ToRat (u32At data 16)⟩,
        ⟨f32ToRat (u32At data 20), f32ToRat (u32At data 24), f32ToRat (u32At data 28)⟩,
        i32At data 48, i32At data 52, i32At data 56, i32At data 60, i32At data 64,
        i32At data 68⟩, ⟨data, 84⟩) := by
  unfold readMDLHeader
  rw [rdF32_ok data 8 (by norm_num) (by omega)]
  dsimp only
  norm_num
  rw [rdF32_ok data 12 (by norm_num) (by omega)]
  dsimp only
  norm_num
  rw [rdF32_ok data 16 (by norm_num) (by omega)]
  dsimp only
  norm_num
  rw [rdF32_ok data 20 (by norm_num) (by omega)]
  dsimp only
  norm_num
  rw [rdF32_ok data 24 (by norm_num) (by omega)]
  dsimp only
  norm_num
  rw [rdF32_ok data 28 (by norm_num) (by omega)]
  dsimp only
  simp only [skipB]
  norm_num
  rw [rdI32_ok data 48 (by norm_num) (by omega)]
  dsimp only
  norm_num
  rw [rdI32_ok data 52 (by norm_num) (by omega)]
  dsimp only
  norm_num
  rw [rdI32_ok data 56 (by norm_num) (by omega)]
  dsimp only
  norm_num
  rw [rdI32_ok data 60 (by norm_num) (by omega)]
  dsimp only
  norm_num
  rw [rdI32_ok data 64 (by norm_num) (by omega)]
  dsimp only
  norm_num
  rw [rdI32_ok data 68 (by norm_num) (by omega)]
  dsimp only
  norm_num [skipB]

/-- On any model buffer with valid magic and version, at least one skin
and a nonzero first-skin group flag, the pre-push phase stops with the
unsupported-skin error right after reading the flag at offset 84,
regardless of all later bytes. -/
theorem mdlPre_groupSkin (data : List Nat) (hlen : 88 ≤ data.length)
    (hmagic : i32At data 0 = 1330660425) (hver : i32At data 4 = 6)
    (hskins : 1 ≤ i32At data 48) (hgroup : i32At data 84 ≠ 0) :
    mdlPre data = .error .unsupportedSkin := by
  have hL : (88 : Int) ≤ (data.length : Int) := by exact_mod_cast hlen
  unfold mdlPre
  rw [rdI32_ok data 0 (by norm_num) (by omega)]
  dsimp only
  rw [if_pos hmagic]
  norm_num
  rw [rdI32_ok data 4 (by norm_num) (by omega)]
  dsimp only
  rw [if_pos hver]
  norm_num
  rw [readMDLHeader_ok8 data hL]
  dsimp only
  obtain ⟨m, hm⟩ : ∃ m, (i32At data 48).toNat = m + 1 := ⟨(i32At data 48).toNat - 1, by omega⟩
  rw [hm, skinsLoop]
  rw [rdI32_ok data 84 (by norm_num) (by omega)]
  dsimp only
  rw [if_neg hgroup]

/-- Claim C7: for every model input whose first skin record's leading
group flag is nonzero (valid magic and version, at least one skin), the
loader fails with the unsupported-skin error as a typed failure value
immediately after reading the flag — the result holds for every
continuation of the buffer past the flag, so no pixel data of that skin
is read — and the caller's mesh collection is unchanged: no model
output is produced. -/
theorem groupSkinFailsBeforePixels (data : List Nat) (meshes : List MDLMesh)
    (hlen : 88 ≤ data.length)
    (hmagic : i32At data 0 = 1330660425) (hver : i32At data 4 = 6)
    (hskins : 1 ≤ i32At data 48) (hgroup : i32At data 84 ≠ 0) :
    importMeshMDL data meshes = (meshes, .failed .unsupportedSkin) := by
  unfold importMeshMDL
  rw [mdlPre_groupSkin data hlen hmagic hver hskins hgroup]
  rfl

/-- An 88-byte model buffer: valid magic and version, one skin, and a
nonzero group flag at offset 84. -/
def c7Buf : List Nat :=
  [73, 68, 80, 79] ++ [6, 0, 0, 0] ++ zeros 40 ++ [1, 0, 0, 0] ++ zeros 32 ++ [1, 0, 0, 0]

set_option maxRecDepth 40000 in
/-- Concrete instance of claim C7 on `c7Buf`. -/
theorem groupSkinFailsBeforePixels_witness :
    importMeshMDL c7Buf [] = ([], .failed .unsupportedSkin) :=
  groupSkinFailsBeforePixels c7Buf [] (by decide) (by decide) (by decide) (by decide)
    (by decide)

end MDLViewer
